import Mathlib

/-!
Shallow embedding of the `multiport` repository: the two launcher scripts
(`multi-port.ts`, basic; `multi-port-config.ts`, config-based) and the
single-file Bun server `src/index.tsx`.
-/

namespace Multiport

/-! ### JavaScript primitives used by the scripts -/

/-- Numeric value of a list of decimal digit characters. -/
def digitsVal (ds : List Char) : Nat :=
  ds.foldl (fun a c => a * 10 + (c.toNat - 48)) 0

/-- Core of JS `parseInt(s, 10)` after sign handling: the longest leading
run of decimal digits, `none` (NaN) when there is none. -/
def jsParseIntCore (cs : List Char) : Option Int :=
  let ds := cs.takeWhile Char.isDigit
  if ds.isEmpty then none else some (Int.ofNat (digitsVal ds))

/-- JS `parseInt(s, 10)`: skip leading whitespace, optional sign, longest
digit run; NaN is modelled as `none`. -/
def jsParseInt (s : String) : Option Int :=
  match s.toList.dropWhile Char.isWhitespace with
  | '-' :: rest => (jsParseIntCore rest).map (fun n => -n)
  | '+' :: rest => jsParseIntCore rest
  | cs => jsParseIntCore cs

/-- Whether the second list starts with the first. -/
def startsWithL : List Char → List Char → Bool
  | [], _ => true
  | _ :: _, [] => false
  | a :: ps, b :: ss => a == b && startsWithL ps ss

/-- Whether `pat` occurs somewhere in the list. -/
def hasSubstrL (pat : List Char) : List Char → Bool
  | [] => startsWithL pat []
  | c :: rest => startsWithL pat (c :: rest) || hasSubstrL pat rest

/-- JS `s.includes(pat)`. -/
def hasSubstr (s pat : String) : Bool :=
  hasSubstrL pat.toList s.toList

/-- JS `s.split(sep)` for a one-character separator, on a character list:
`""` yields `[""]`, a trailing separator yields a trailing empty field. -/
def splitCharL (sep : Char) : List Char → List (List Char)
  | [] => [[]]
  | c :: rest =>
    if c == sep then [] :: splitCharL sep rest
    else
      match splitCharL sep rest with
      | g :: gs => (c :: g) :: gs
      | [] => [[c]]

/-- JS `s.split(",")`. -/
def jsSplitComma (s : String) : List String :=
  (splitCharL ',' s.toList).map String.mk

/-- JS `s.split("/")`, used to model URL path segmentation. -/
def jsSplitSlash (s : String) : List String :=
  (splitCharL '/' s.toList).map String.mk

/-- JS `s.trim()`: strip whitespace from both ends. -/
def trimL (cs : List Char) : List Char :=
  ((cs.dropWhile Char.isWhitespace).reverse.dropWhile Char.isWhitespace).reverse

/-- JS `s.trim()`. -/
def jsTrim (s : String) : String :=
  String.mk (trimL s.toList)

/-- JS `s.startsWith(pre)`. -/
def jsStartsWith (s pre : String) : Bool :=
  startsWithL pre.toList s.toList

example : jsParseInt "3000" = some 3000 := by decide
example : jsParseInt " -12ab" = some (-12) := by decide
example : jsParseInt "abc" = none := by decide
example : jsParseInt "" = none := by decide
example : hasSubstr "some error here" "error" = true := by decide
example : hasSubstr "hello" "error" = false := by decide
example : jsSplitComma "a, b ," = ["a", " b ", ""] := by decide
example : jsTrim " a b " = "a b" := by decide

/-! ### Port parsing of the basic launcher (`multi-port.ts`)

Lines 36-61 of the script: the `--default` flag, the `--ports` flag with a
comma-separated value, positional port tokens, and the default fallback. -/

/-- `const DEFAULT_PORTS = [3000, 3001, 3002, 3003]`. -/
def DEFAULT_PORTS : List Int := [3000, 3001, 3002, 3003]

/-- `portsString.split(",").map(p => parseInt(p.trim(), 10))` followed by
`.filter(p => !isNaN(p))`: NaN entries (`none`) are dropped silently. -/
def parsePortsString (s : String) : List Int :=
  ((jsSplitComma s).map (fun p => jsParseInt (jsTrim p))).filterMap id

/-- The positional-argument loop: every token not starting with `--` is
run through `parseInt` and kept when it is not NaN. -/
def positionalPorts (args : List String) : List Int :=
  args.filterMap (fun a => if jsStartsWith a "--" then none else jsParseInt a)

/-- `args.findIndex(arg => arg === flag)`, then `args[portsIndex + 1]` when
`portsIndex !== -1 && portsIndex + 1 < args.length`. -/
def flagValue (args : List String) (flag : String) : Option String :=
  match args.findIdx? (fun a => a == flag) with
  | some i => args.get? (i + 1)
  | none => none

/-- Ports as computed from the CLI alone: the `--ports` branch when the
flag has a following value, the positional loop otherwise. -/
def cliPorts (args : List String) : List Int :=
  match flagValue args "--ports" with
  | some s => parsePortsString s
  | none => positionalPorts args

/-- The full port computation of `multi-port.ts` (lines 36-61): `--default`
selects `DEFAULT_PORTS`, otherwise the CLI ports; an empty result falls
back to `DEFAULT_PORTS`. -/
def multiPortPorts (args : List String) : List Int :=
  let ports := if args.contains "--default" then DEFAULT_PORTS else cliPorts args
  if ports.isEmpty then DEFAULT_PORTS else ports

example : multiPortPorts [] = [3000, 3001, 3002, 3003] := by decide
example : multiPortPorts ["3005", "x", "3006"] = [3005, 3006] := by decide
example : multiPortPorts ["--ports", "4000, 4001"] = [4000, 4001] := by decide
example : multiPortPorts ["--default", "5000"] = [3000, 3001, 3002, 3003] := by decide
example : multiPortPorts ["--ports"] = [3000, 3001, 3002, 3003] := by decide

/-! ### Port parsing of the config launcher (`multi-port-config.ts`)

Lines 64-111: `--profile` lookup in `ports.config.json` (exit(1) on a
missing profile or a profile without ports), else the same `--ports` /
positional parsing, then the development/defaultPorts/hard-coded fallback. -/

/-- A named profile of `ports.config.json`; `none` models an absent field. -/
structure Profile where
  ports : Option (List Int)
  description : Option String
deriving DecidableEq

/-- The parsed `ports.config.json`: its named profile entries and the
top-level `defaultPorts` field. -/
structure PortConfig where
  entries : List (String × Profile)
  defaultPorts : Option (List Int)
deriving DecidableEq

/-- `portConfig[profileName]`. -/
def PortConfig.find? (cfg : PortConfig) (name : String) : Option Profile :=
  cfg.entries.lookup name

/-- The fallback of lines 102-111: the development profile's ports when
present, else `defaultPorts`, else the hard-coded list. -/
def configFallback (cfg : PortConfig) : List Int :=
  match (cfg.find? "development").bind Profile.ports with
  | some ps => ps
  | none =>
    match cfg.defaultPorts with
    | some d => d
    | none => [3000, 3001, 3002, 3003]

/-- The full port computation of `multi-port-config.ts` (lines 64-111);
`none` models `process.exit(1)` on an unusable `--profile`. -/
def multiPortConfigPorts (cfg : PortConfig) (args : List String) : Option (List Int) :=
  match flagValue args "--profile" with
  | some name =>
    match cfg.find? name with
    | some prof =>
      match prof.ports with
      | some ps => if ps.isEmpty then some (configFallback cfg) else some ps
      | none => none
    | none => none
  | none =>
    let ps := cliPorts args
    if ps.isEmpty then some (configFallback cfg) else some ps

example : multiPortConfigPorts ⟨[], none⟩ ["4000"] = some [4000] := by decide
example : multiPortConfigPorts ⟨[], none⟩ [] = some [3000, 3001, 3002, 3003] := by decide
example :
    multiPortConfigPorts ⟨[("testing", ⟨some [4000, 4001], none⟩)], none⟩ ["--profile", "testing"] =
      some [4000, 4001] := by decide
example :
    multiPortConfigPorts ⟨[], some [9000]⟩ ["--profile", "testing"] = none := by decide
example : multiPortConfigPorts ⟨[], some [9000]⟩ [] = some [9000] := by decide

/-! ### `startServer`: the spawned command (both launchers) -/

/-- The command, argument vector and environment passed to `spawn`; the
environment is an association list where a later binding overrides an
earlier one, as in a JS object spread. -/
structure SpawnSpec where
  cmd : String
  cmdArgs : List String
  env : List (String × String)
deriving DecidableEq

/-- `spawn("bun", ["--hot", "src/index.tsx"], { env: { ...process.env,
PORT: port.toString() }, stdio: "pipe" })` in `multi-port.ts`. -/
def startServerSpawn (baseEnv : List (String × String)) (port : Int) : SpawnSpec :=
  { cmd := "bun", cmdArgs := ["--hot", "src/index.tsx"],
    env := baseEnv ++ [("PORT", toString port)] }

/-- The same `spawn` call as written, duplicated, in `multi-port-config.ts`. -/
def configStartServerSpawn (baseEnv : List (String × String)) (port : Int) : SpawnSpec :=
  { cmd := "bun", cmdArgs := ["--hot", "src/index.tsx"],
    env := baseEnv ++ [("PORT", toString port)] }

/-- The spawn loop `for (const port of ports) startServer(port)`. -/
def spawnAll (baseEnv : List (String × String)) : List Int → List SpawnSpec
  | [] => []
  | p :: rest => startServerSpawn baseEnv p :: spawnAll baseEnv rest

/-! ### Output forwarding (stdout/stderr handlers of both launchers) -/

/-- The port tag put in front of every forwarded line. -/
def portTag (port : Int) : String :=
  "[Port " ++ toString port ++ "] "

/-- The stdout handler: the chunk is logged, prefixed with the port tag,
only when it contains one of the three relevance markers. -/
def stdoutHandler (port : Int) (data : String) : Option String :=
  if hasSubstr data "Server running" || hasSubstr data "error" || hasSubstr data "Error" then
    some (portTag port ++ jsTrim data)
  else none

/-- The stderr handler: every chunk is logged, prefixed with the port tag. -/
def stderrHandler (port : Int) (data : String) : Option String :=
  some (portTag port ++ jsTrim data)

example : stdoutHandler 3000 "Server running at x" = some "[Port 3000] Server running at x" := by
  decide
example : stdoutHandler 3000 "plain chatter" = none := by decide
example : stderrHandler 3000 "boom " = some "[Port 3000] boom" := by decide

/-! ### Process-lifecycle bookkeeping

`const processes: Array<\x7b port: number; process: any \x7d> = []`, the
`processes.push` in `startServer`, and the `findIndex`/`splice` pair in the
per-child exit handler, modelled as a transition system. -/

/-- One element of the `processes` array; the child handle is abstracted
to a numeric process id. -/
structure Entry where
  port : Int
  pid : Nat
deriving DecidableEq

/-- `processes.push(\x7b port, process: child \x7d)` in `startServer`. -/
def spawnStep (s : List Entry) (port : Int) (pid : Nat) : List Entry :=
  s ++ [⟨port, pid⟩]

/-- `processes.findIndex(p => p.port === port)`. -/
def findPortIdx : List Entry → Int → Option Nat
  | [], _ => none
  | e :: rest, q => if e.port == q then some 0 else (findPortIdx rest q).map (· + 1)

/-- The exit handler: `if (index !== -1) processes.splice(index, 1)`. -/
def exitStep (s : List Entry) (q : Int) : List Entry :=
  match findPortIdx s q with
  | some i => s.take i ++ s.drop (i + 1)
  | none => s

/-- An observable event of the launcher's lifetime: `startServer` pushing a
child, or a child's `exit` event firing. -/
inductive Event
  | spawned (port : Int) (pid : Nat)
  | exited (port : Int)
deriving DecidableEq

/-- One transition of the `processes` array. -/
def step (s : List Entry) : Event → List Entry
  | .spawned p pid => spawnStep s p pid
  | .exited p => exitStep s p

/-- The `processes` array after a trace of events (initially `[]`). -/
def run (tr : List Event) : List Entry :=
  tr.foldl step []

/-- Number of spawn events for port `q` in a trace. -/
def spawnCount (q : Int) (tr : List Event) : Nat :=
  tr.countP (fun ev => match ev with | .spawned p _ => p == q | .exited _ => false)

/-- Number of exit events for port `q` in a trace. -/
def exitCount (q : Int) (tr : List Event) : Nat :=
  tr.countP (fun ev => match ev with | .spawned _ _ => false | .exited p => p == q)

/-- Total number of spawn events in a trace. -/
def spawnTotal (tr : List Event) : Nat :=
  tr.countP (fun ev => match ev with | .spawned _ _ => true | .exited _ => false)

/-- Total number of exit events in a trace. -/
def exitTotal (tr : List Event) : Nat :=
  tr.countP (fun ev => match ev with | .spawned _ _ => false | .exited _ => true)

/-- Number of entries for port `q` in the `processes` array. -/
def countEntries (q : Int) (s : List Entry) : Nat :=
  s.countP (fun e => e.port == q)

/-- A trace is well formed when every exit event belongs to a child that
was spawned before and had not exited yet: in every prefix, exits of a
port never outnumber its spawns. -/
def WF (tr : List Event) : Prop :=
  ∀ n : Nat, ∀ q : Int, exitCount q (tr.take n) ≤ spawnCount q (tr.take n)

/-! ### The SIGINT handler (both launchers) -/

/-- The `process.on("SIGINT", ...)` loop: one `child.kill("SIGTERM")` per
entry of `processes`, in order. -/
def sigintKills (procs : List Entry) : List (Nat × String) :=
  procs.map (fun e => (e.pid, "SIGTERM"))

/-! ### The server `src/index.tsx` -/

/-- `parseInt(process.env.PORT || "3000", 10)`: the argument of `parseInt`
is `"3000"` when `PORT` is unset or the empty string (both are falsy). -/
def serverPort (envPORT : Option String) : Option Int :=
  jsParseInt (match envPORT with
    | some s => if s = "" then "3000" else s
    | none => "3000")

/-- The body of a `Response.json` of the hello handlers; `port` is a JS
number, `none` standing for NaN. -/
structure HelloResponse where
  message : String
  method : Option String
  port : Option Int
deriving DecidableEq

/-- The `GET` handler of route `/api/hello`. -/
def apiHelloGET (p : Option Int) : HelloResponse :=
  { message := "Hello, world!", method := some "GET", port := p }

/-- The `PUT` handler of route `/api/hello`. -/
def apiHelloPUT (p : Option Int) : HelloResponse :=
  { message := "Hello, world!", method := some "PUT", port := p }

/-- The handler of route `/api/hello/:name`. -/
def apiHelloName (p : Option Int) (name : String) : HelloResponse :=
  { message := "Hello, " ++ name ++ "!", port := p, method := none }

/-- Matching of the route pattern `/api/hello/:name`: one non-empty path
segment after `/api/hello/`. -/
def helloNameParam (path : String) : Option String :=
  match jsSplitSlash path with
  | ["", "api", "hello", name] => if name = "" then none else some name
  | _ => none

/-- Dispatch over the hello routes of the `serve` call: `/api/hello` has
method keys `GET` and `PUT`; `/api/hello/:name` is a bare handler, hence
method-independent; everything else falls through (to `/*`). -/
def serveHello (p : Option Int) (method : String) (path : String) : Option HelloResponse :=
  if path = "/api/hello" then
    if method = "GET" then some (apiHelloGET p)
    else if method = "PUT" then some (apiHelloPUT p)
    else none
  else
    match helloNameParam path with
    | some name => some (apiHelloName p name)
    | none => none

/-! ### Helper lemmas -/

theorem flagValue_eq_none_of_not_mem {args : List String} {flag : String} (h : flag ∉ args) :
    flagValue args flag = none := by
  unfold flagValue
  have hn : args.findIdx? (fun a => a == flag) = none :=
    List.findIdx?_eq_none_iff.mpr (fun x hx => beq_eq_false_iff_ne.mpr (fun he => h (he ▸ hx)))
  rw [hn]

/-! ### Helper lemmas for the bookkeeping invariant -/

theorem findPortIdx_cons (e : Entry) (rest : List Entry) (q : Int) :
    findPortIdx (e :: rest) q =
      if e.port == q then some 0 else (findPortIdx rest q).map (· + 1) := rfl

theorem exitStep_cons (e : Entry) (rest : List Entry) (q : Int) :
    exitStep (e :: rest) q = if e.port = q then rest else e :: exitStep rest q := by
  by_cases hp : e.port = q
  · simp [exitStep, findPortIdx_cons, hp]
  · cases hr : findPortIdx rest q with
    | none => simp [exitStep, findPortIdx_cons, hp, hr]
    | some i =>
      simp [exitStep, findPortIdx_cons, hp, hr, List.take_succ_cons, List.drop_succ_cons]

theorem countEntries_cons (q : Int) (e : Entry) (s : List Entry) :
    countEntries q (e :: s) = countEntries q s + if e.port = q then 1 else 0 := by
  simp [countEntries, List.countP_cons]

theorem countEntries_spawnStep (q p : Int) (pid : Nat) (s : List Entry) :
    countEntries q (spawnStep s p pid) = countEntries q s + if p = q then 1 else 0 := by
  simp [spawnStep, countEntries, List.countP_append, List.countP_cons]

theorem length_spawnStep (p : Int) (pid : Nat) (s : List Entry) :
    (spawnStep s p pid).length = s.length + 1 := by
  simp [spawnStep]

theorem countEntries_exitStep_self (q : Int) :
    ∀ s : List Entry, 0 < countEntries q s →
      countEntries q (exitStep s q) + 1 = countEntries q s := by
  intro s
  induction s with
  | nil => intro h; cases h
  | cons e rest ih =>
    intro h
    rw [exitStep_cons]
    by_cases hp : e.port = q
    · rw [if_pos hp, countEntries_cons, if_pos hp]
    · rw [if_neg hp, countEntries_cons, if_neg hp]
      rw [countEntries_cons, if_neg hp] at h ⊢
      have := ih (by omega)
      omega

theorem countEntries_exitStep_ne (q r : Int) (hqr : r ≠ q) :
    ∀ s : List Entry, countEntries q (exitStep s r) = countEntries q s := by
  intro s
  induction s with
  | nil => rfl
  | cons e rest ih =>
    rw [exitStep_cons]
    by_cases hp : e.port = r
    · rw [if_pos hp, countEntries_cons, if_neg (by rw [hp]; exact hqr)]
      omega
    · rw [if_neg hp, countEntries_cons, countEntries_cons, ih]

theorem length_exitStep_pos (q : Int) :
    ∀ s : List Entry, 0 < countEntries q s → (exitStep s q).length + 1 = s.length := by
  intro s
  induction s with
  | nil => intro h; cases h
  | cons e rest ih =>
    intro h
    rw [exitStep_cons]
    by_cases hp : e.port = q
    · rw [if_pos hp]
      rfl
    · rw [if_neg hp]
      rw [countEntries_cons, if_neg hp] at h
      have := ih (by omega)
      simp only [List.length_cons]
      omega

theorem exitStep_of_absent (q : Int) :
    ∀ s : List Entry, countEntries q s = 0 → exitStep s q = s := by
  intro s
  induction s with
  | nil => intro _; rfl
  | cons e rest ih =>
    intro h
    rw [countEntries_cons] at h
    rw [exitStep_cons]
    by_cases hp : e.port = q
    · rw [if_pos hp] at h
      omega
    · rw [if_neg hp] at h
      rw [if_neg hp, ih (by omega)]

theorem run_append (tr : List Event) (ev : Event) :
    run (tr ++ [ev]) = step (run tr) ev := by
  simp [run, List.foldl_append]

theorem spawnCount_append_spawned (q p : Int) (pid : Nat) (tr : List Event) :
    spawnCount q (tr ++ [Event.spawned p pid]) = spawnCount q tr + if p = q then 1 else 0 := by
  simp [spawnCount, List.countP_append, List.countP_cons]

theorem exitCount_append_spawned (q p : Int) (pid : Nat) (tr : List Event) :
    exitCount q (tr ++ [Event.spawned p pid]) = exitCount q tr := by
  simp [exitCount, List.countP_append, List.countP_cons]

theorem spawnCount_append_exited (q r : Int) (tr : List Event) :
    spawnCount q (tr ++ [Event.exited r]) = spawnCount q tr := by
  simp [spawnCount, List.countP_append, List.countP_cons]

theorem exitCount_append_exited (q r : Int) (tr : List Event) :
    exitCount q (tr ++ [Event.exited r]) = exitCount q tr + if r = q then 1 else 0 := by
  simp [exitCount, List.countP_append, List.countP_cons]

theorem spawnTotal_append_spawned (p : Int) (pid : Nat) (tr : List Event) :
    spawnTotal (tr ++ [Event.spawned p pid]) = spawnTotal tr + 1 := by
  simp [spawnTotal, List.countP_append, List.countP_cons]

theorem exitTotal_append_spawned (p : Int) (pid : Nat) (tr : List Event) :
    exitTotal (tr ++ [Event.spawned p pid]) = exitTotal tr := by
  simp [exitTotal, List.countP_append, List.countP_cons]

theorem spawnTotal_append_exited (r : Int) (tr : List Event) :
    spawnTotal (tr ++ [Event.exited r]) = spawnTotal tr := by
  simp [spawnTotal, List.countP_append, List.countP_cons]

theorem exitTotal_append_exited (r : Int) (tr : List Event) :
    exitTotal (tr ++ [Event.exited r]) = exitTotal tr + 1 := by
  simp [exitTotal, List.countP_append, List.countP_cons]

theorem wf_append_elim {tr : List Event} {ev : Event} (h : WF (tr ++ [ev])) : WF tr := by
  intro n q
  rcases le_or_lt n tr.length with hn | hn
  · have := h n q
    rwa [List.take_append_of_le_length hn] at this
  · have := h tr.length q
    rw [List.take_left'] at this
    · rwa [List.take_of_length_le (Nat.le_of_lt hn)]
    · rfl

theorem wf_full {tr : List Event} (h : WF tr) (q : Int) :
    exitCount q tr ≤ spawnCount q tr := by
  have := h tr.length q
  rwa [List.take_length] at this

theorem wf_last_exited {tr : List Event} {q : Int} (h : WF (tr ++ [Event.exited q])) :
    exitCount q tr + 1 ≤ spawnCount q tr := by
  have := wf_full h q
  simpa [exitCount, spawnCount, List.countP_append, List.countP_cons] using this

/-- The central invariant: along a well-formed trace, the number of
entries recorded for a port, plus the exits of that port, equals its
spawns; likewise for the total length of the list. -/
theorem run_invariant : ∀ tr : List Event, WF tr →
    (∀ q, countEntries q (run tr) + exitCount q tr = spawnCount q tr) ∧
    (run tr).length + exitTotal tr = spawnTotal tr := by
  intro tr
  induction tr using List.reverseRecOn with
  | nil => exact fun _ => ⟨fun q => rfl, rfl⟩
  | append_singleton tr ev ih =>
    intro h
    obtain ⟨ihc, ihl⟩ := ih (wf_append_elim h)
    cases ev with
    | spawned p pid =>
      constructor
      · intro q
        rw [run_append]
        show countEntries q (spawnStep (run tr) p pid) + _ = _
        rw [countEntries_spawnStep, exitCount_append_spawned, spawnCount_append_spawned]
        have hc := ihc q
        by_cases hpq : p = q
        · rw [if_pos hpq]
          omega
        · rw [if_neg hpq]
          omega
      · rw [run_append]
        show (spawnStep (run tr) p pid).length + _ = _
        rw [length_spawnStep, spawnTotal_append_spawned, exitTotal_append_spawned]
        omega
    | exited r =>
      have hlt : 0 < countEntries r (run tr) := by
        have h1 := wf_last_exited h
        have h2 := ihc r
        omega
      constructor
      · intro q
        rw [run_append]
        show countEntries q (exitStep (run tr) r) + _ = _
        rw [exitCount_append_exited, spawnCount_append_exited]
        have hc := ihc q
        by_cases hqr : r = q
        · subst hqr
          have h2 := countEntries_exitStep_self r (run tr) hlt
          rw [if_pos rfl]
          omega
        · rw [countEntries_exitStep_ne q r hqr, if_neg hqr]
          omega
      · rw [run_append]
        show (exitStep (run tr) r).length + _ = _
        have h2 := length_exitStep_pos r (run tr) hlt
        rw [spawnTotal_append_exited, exitTotal_append_exited]
        omega

/-! ### Claims -/

/-- C1, counterexample: with no CLI arguments the basic launcher spawns on
`[3000, 3001, 3002, 3003]`, a list that does not come from positional
tokens, a `--ports` value, or any profile (the basic launcher has none). -/
theorem claim1_cex :
    cliPorts [] = [] ∧ multiPortPorts [] ≠ cliPorts [] ∧
    multiPortPorts [] = [3000, 3001, 3002, 3003] := by decide

/-- C1, amended: the ports come from the CLI arguments, from the profile
named by `--profile`, or from the built-in fallbacks: the basic launcher's
`DEFAULT_PORTS`, and the config launcher's fallback chain (development
profile ports, else `defaultPorts`, else the hard-coded list). -/
theorem claim1_thm :
    (∀ args, multiPortPorts args = cliPorts args ∨ multiPortPorts args = DEFAULT_PORTS) ∧
    (∀ cfg args ps, multiPortConfigPorts cfg args = some ps →
      ps = cliPorts args ∨
      (∃ name prof, flagValue args "--profile" = some name ∧ cfg.find? name = some prof ∧
        prof.ports = some ps) ∨
      ps = configFallback cfg) ∧
    (∀ cfg : PortConfig,
      (∃ d, (cfg.find? "development").bind Profile.ports = some d ∧ configFallback cfg = d) ∨
      ((cfg.find? "development").bind Profile.ports = none ∧
        ∃ d, cfg.defaultPorts = some d ∧ configFallback cfg = d) ∨
      ((cfg.find? "development").bind Profile.ports = none ∧ cfg.defaultPorts = none ∧
        configFallback cfg = [3000, 3001, 3002, 3003])) := by
  refine ⟨?_, ?_, ?_⟩
  · intro args
    unfold multiPortPorts
    cases hc : args.contains "--default" <;>
      simp only [Bool.false_eq_true, if_false, if_true] <;>
      [skip; exact (by cases h : DEFAULT_PORTS.isEmpty <;> simp [h])]
    cases he : (cliPorts args).isEmpty <;> simp [he]
  · intro cfg args ps h
    unfold multiPortConfigPorts at h
    split at h
    · rename_i name hf
      split at h
      · rename_i prof hp
        split at h
        · rename_i l hq
          split at h
          · exact Or.inr (Or.inr (Option.some.inj h).symm)
          · exact Or.inr (Or.inl ⟨name, prof, hf, hp, by rw [hq, Option.some.inj h]⟩)
        · cases h
      · cases h
    · dsimp only at h
      split at h
      · exact Or.inr (Or.inr (Option.some.inj h).symm)
      · exact Or.inl (Option.some.inj h).symm
  · intro cfg
    unfold configFallback
    cases hd : (cfg.find? "development").bind Profile.ports with
    | some d => exact Or.inl ⟨d, rfl, rfl⟩
    | none =>
      cases hq : cfg.defaultPorts with
      | some d => exact Or.inr (Or.inl ⟨rfl, d, rfl, rfl⟩)
      | none => exact Or.inr (Or.inr ⟨rfl, rfl, rfl⟩)

/-- C1 witness for the hypotheses of the amended theorem. -/
theorem claim1_witness :
    [4000] = cliPorts ["4000"] ∨
    (∃ name prof, flagValue ["4000"] "--profile" = some name ∧
      PortConfig.find? ⟨[], none⟩ name = some prof ∧ prof.ports = some [4000]) ∨
    [4000] = configFallback ⟨[], none⟩ :=
  claim1_thm.2.1 ⟨[], none⟩ ["4000"] [4000] (by decide)

/-- C2: the SIGINT handler sends a SIGTERM kill to every child recorded in
the `processes` list, one kill per entry. -/
theorem claim2_thm (procs : List Entry) (e : Entry) (h : e ∈ procs) :
    (e.pid, "SIGTERM") ∈ sigintKills procs ∧ (sigintKills procs).length = procs.length := by
  exact ⟨List.mem_map.mpr ⟨e, h, rfl⟩, by simp [sigintKills]⟩

/-- C2 witness: a concrete recorded child receives its SIGTERM. -/
theorem claim2_witness :
    (7, "SIGTERM") ∈ sigintKills [⟨3000, 7⟩, ⟨3001, 8⟩] ∧
    (sigintKills [⟨3000, 7⟩, ⟨3001, 8⟩]).length = 2 :=
  claim2_thm [⟨3000, 7⟩, ⟨3001, 8⟩] ⟨3000, 7⟩ (by decide)

/-- C3, counterexample: a stdout chunk without any of the relevance
markers is silently dropped, not forwarded. -/
theorem claim3_cex : stdoutHandler 3000 "chunk from child" = none := by decide

/-- C3, amended: every stderr chunk is forwarded prefixed with the port
tag; a stdout chunk is forwarded (with the same tag) exactly when it
contains "Server running", "error", or "Error", and is dropped otherwise. -/
theorem claim3_thm (port : Int) (data : String) :
    stderrHandler port data = some (portTag port ++ jsTrim data) ∧
    ((stdoutHandler port data).isSome ↔
      (hasSubstr data "Server running" || hasSubstr data "error" || hasSubstr data "Error")
        = true) ∧
    (∀ o, stdoutHandler port data = some o → o = portTag port ++ jsTrim data) := by
  refine ⟨rfl, ?_, ?_⟩
  · unfold stdoutHandler
    split <;> simp_all
  · intro o h
    unfold stdoutHandler at h
    split at h
    · exact (Option.some.inj h).symm
    · cases h

/-- C3 witness: a forwarded stdout chunk at a concrete input. -/
theorem claim3_witness : "[Port 3000] an error" = portTag 3000 ++ jsTrim " an error " :=
  (claim3_thm 3000 " an error ").2.2 "[Port 3000] an error" (by decide)

/-- C4, counterexample: duplicated CLI ports are spawned twice with the
same PORT; nothing deduplicates the parsed list. -/
theorem claim4_cex :
    multiPortPorts ["3000", "3000"] = [3000, 3000] ∧
    ¬ (multiPortPorts ["3000", "3000"]).Nodup ∧
    spawnAll [] (multiPortPorts ["3000", "3000"]) =
      [startServerSpawn [] 3000, startServerSpawn [] 3000] := by decide

/-- C4, amended: the spawn loop starts exactly one child per element of
the computed port list, preserving order and multiplicity, so the spawned
ports are pairwise different only when that list is duplicate-free; the
built-in default list is, but the code enforces nothing for CLI ports. -/
theorem claim4_thm :
    (∀ baseEnv ports, spawnAll baseEnv ports = ports.map (startServerSpawn baseEnv)) ∧
    DEFAULT_PORTS.Nodup ∧
    ¬ (∀ args, (multiPortPorts args).Nodup) := by
  refine ⟨?_, by decide, ?_⟩
  · intro be ports
    induction ports with
    | nil => rfl
    | cons p rest ih => simp [spawnAll, ih]
  · intro h
    exact absurd (h ["3000", "3000"]) (by decide)

/-- C4 witness: the spawn loop applied to a concrete port list. -/
theorem claim4_witness :
    spawnAll [] [3000, 3001] = [3000, 3001].map (startServerSpawn []) :=
  claim4_thm.1 [] [3000, 3001]

/-- C5, counterexample: the `/api/hello/:name` endpoint's response varies
with the request path, so it is not a static message. -/
theorem claim5_cex :
    serveHello (some 3000) "GET" "/api/hello/Alice" ≠
      serveHello (some 3000) "GET" "/api/hello/Bob" ∧
    (serveHello (some 3000) "GET" "/api/hello/Alice").isSome = true := by decide

/-- C5, amended: the hello routes are exactly `GET /api/hello` and
`PUT /api/hello`, which return the fixed "Hello, world!" JSON, and
`/api/hello/:name`, which returns a hello JSON personalized with the name
path parameter; other methods on `/api/hello` and non-matching paths fall
through. -/
theorem claim5_thm :
    (∀ p, serveHello p "GET" "/api/hello" = some (apiHelloGET p) ∧
      serveHello p "PUT" "/api/hello" = some (apiHelloPUT p)) ∧
    (∀ p m, m ≠ "GET" → m ≠ "PUT" → serveHello p m "/api/hello" = none) ∧
    (∀ p m path name, helloNameParam path = some name →
      serveHello p m path = some (apiHelloName p name)) ∧
    (∀ p m path, path ≠ "/api/hello" → helloNameParam path = none →
      serveHello p m path = none) ∧
    (∀ p name, (apiHelloGET p).message = "Hello, world!" ∧
      (apiHelloPUT p).message = "Hello, world!" ∧
      (apiHelloName p name).message = "Hello, " ++ name ++ "!") := by
  refine ⟨fun p => ⟨rfl, rfl⟩, ?_, ?_, ?_, fun p name => ⟨rfl, rfl, rfl⟩⟩
  · intro p m h1 h2
    simp [serveHello, h1, h2, helloNameParam]
  · intro p m path name h
    by_cases hp : path = "/api/hello"
    · subst hp
      rw [show helloNameParam "/api/hello" = none from by decide] at h
      cases h
    · simp [serveHello, hp, h]
  · intro p m path hp h
    simp [serveHello, hp, h]

/-- C5 witness: concrete requests exercising the three hello routes. -/
theorem claim5_witness :
    serveHello (some 3000) "POST" "/api/hello" = none ∧
    serveHello (some 3000) "GET" "/api/hello/Ada" = some (apiHelloName (some 3000) "Ada") :=
  ⟨claim5_thm.2.1 (some 3000) "POST" (by decide) (by decide),
   claim5_thm.2.2.1 (some 3000) "GET" "/api/hello/Ada" "Ada" (by decide)⟩

/-- C6: outside the launcher-specific flags and with a non-empty port
specification, the two launchers compute the same port list, and their
duplicated `startServer` functions build the same spawn command and
environment for every port. -/
theorem claim6_thm (args : List String) (cfg : PortConfig) (baseEnv : List (String × String))
    (hdef : "--default" ∉ args) (hprof : "--profile" ∉ args)
    (_hhelp : "--help" ∉ args) (_hh : "-h" ∉ args)
    (_hlist : "--list" ∉ args) (_hl : "-l" ∉ args)
    (hne : cliPorts args ≠ []) :
    multiPortPorts args = cliPorts args ∧
    multiPortConfigPorts cfg args = some (cliPorts args) ∧
    (∀ p, startServerSpawn baseEnv p = configStartServerSpawn baseEnv p) := by
  have hf := flagValue_eq_none_of_not_mem hprof
  refine ⟨?_, ?_, fun p => rfl⟩
  · unfold multiPortPorts
    simp [hdef, hne]
  · unfold multiPortConfigPorts
    rw [hf]
    simp [hne]

/-- C6 witness: a concrete flag-free argument list on which both launchers
agree. -/
theorem claim6_witness :
    multiPortPorts ["4005"] = cliPorts ["4005"] ∧
    multiPortConfigPorts ⟨[("development", ⟨some [3000], none⟩)], some [1]⟩ ["4005"] =
      some (cliPorts ["4005"]) ∧
    (∀ p, startServerSpawn [] p = configStartServerSpawn [] p) :=
  claim6_thm ["4005"] ⟨[("development", ⟨some [3000], none⟩)], some [1]⟩ []
    (by decide) (by decide) (by decide) (by decide) (by decide) (by decide) (by decide)

/-- C7: `startServer` appends exactly one `{port, process}` entry; a
child's exit event removes exactly one entry with the exiting child's port
(nothing when none remains); along any trace whose exits belong to
children spawned and not yet exited, the list length never exceeds the
number of spawned-and-not-yet-exited children. -/
theorem claim7_thm :
    (∀ s p pid, (spawnStep s p pid).length = s.length + 1 ∧
      spawnStep s p pid = s ++ [⟨p, pid⟩]) ∧
    (∀ s q, ((∃ e ∈ s, e.port = q) → (exitStep s q).length + 1 = s.length) ∧
      ((∀ e ∈ s, e.port ≠ q) → exitStep s q = s)) ∧
    (∀ tr, WF tr → (run tr).length ≤ spawnTotal tr - exitTotal tr) := by
  refine ⟨fun s p pid => ⟨length_spawnStep p pid s, rfl⟩, ?_, ?_⟩
  · intro s q
    constructor
    · intro ⟨e, he, hq⟩
      exact length_exitStep_pos q s (List.countP_pos_iff.mpr ⟨e, he, by simp [hq]⟩)
    · intro hall
      exact exitStep_of_absent q s (List.countP_eq_zero.mpr (fun e he => by simp [hall e he]))
  · intro tr hWF
    have := (run_invariant tr hWF).2
    omega

/-- C7 witness: a concrete spawn/exit trace and concrete removals. -/
theorem claim7_witness :
    (exitStep [⟨3000, 1⟩, ⟨3001, 2⟩] 3000).length + 1 = 2 ∧
    exitStep [⟨3000, 1⟩, ⟨3001, 2⟩] 3002 = [⟨3000, 1⟩, ⟨3001, 2⟩] ∧
    (run [Event.spawned 3000 1, Event.exited 3000]).length ≤
      spawnTotal [Event.spawned 3000 1, Event.exited 3000] -
        exitTotal [Event.spawned 3000 1, Event.exited 3000] :=
  ⟨(claim7_thm.2.1 [⟨3000, 1⟩, ⟨3001, 2⟩] 3000).1 ⟨⟨3000, 1⟩, by decide, rfl⟩,
   (claim7_thm.2.1 [⟨3000, 1⟩, ⟨3001, 2⟩] 3002).2 (by decide),
   claim7_thm.2.2 [Event.spawned 3000 1, Event.exited 3000] (by
     intro n q
     match n with
     | 0 => simp [exitCount]
     | 1 => simp [exitCount, spawnCount, List.countP_cons]
     | (n + 2) =>
       rw [List.take_of_length_le (by simp)]
       by_cases hq : (3000 : Int) = q <;>
         simp [exitCount, spawnCount, List.countP_cons, hq])⟩

/-- C8: when the CLI yields no valid port, the basic launcher falls back
to `DEFAULT_PORTS`, while the config launcher falls back to the
development profile's ports, then to the config's `defaultPorts`, and only
then to the hard-coded `[3000, 3001, 3002, 3003]`. -/
theorem claim8_thm (args : List String) (cfg : PortConfig)
    (hcli : cliPorts args = []) (hprof : "--profile" ∉ args) :
    multiPortPorts args = DEFAULT_PORTS ∧
    multiPortConfigPorts cfg args = some (configFallback cfg) ∧
    (∀ d, (cfg.find? "development").bind Profile.ports = some d → configFallback cfg = d) ∧
    ((cfg.find? "development").bind Profile.ports = none →
      ∀ d, cfg.defaultPorts = some d → configFallback cfg = d) ∧
    ((cfg.find? "development").bind Profile.ports = none → cfg.defaultPorts = none →
      configFallback cfg = [3000, 3001, 3002, 3003]) := by
  have hf := flagValue_eq_none_of_not_mem hprof
  refine ⟨?_, ?_, ?_, ?_, ?_⟩
  · unfold multiPortPorts
    by_cases hm : "--default" ∈ args
    · simp [hm, DEFAULT_PORTS]
    · simp [hm, hcli]
  · unfold multiPortConfigPorts
    rw [hf]
    simp [hcli]
  · intro d hd
    unfold configFallback
    rw [hd]
  · intro hd d hdd
    unfold configFallback
    rw [hd, hdd]
  · intro hd hdd
    unfold configFallback
    rw [hd, hdd]

/-- C8 witness: an unusable `--ports` value triggers both fallbacks. -/
theorem claim8_witness :
    multiPortPorts ["--ports", "abc"] = DEFAULT_PORTS ∧
    multiPortConfigPorts ⟨[("development", ⟨some [3100], none⟩)], some [9]⟩ ["--ports", "abc"] =
      some (configFallback ⟨[("development", ⟨some [3100], none⟩)], some [9]⟩) ∧
    configFallback ⟨[("development", ⟨some [3100], none⟩)], some [9]⟩ = [3100] :=
  ⟨(claim8_thm ["--ports", "abc"] ⟨[("development", ⟨some [3100], none⟩)], some [9]⟩
      (by decide) (by decide)).1,
   (claim8_thm ["--ports", "abc"] ⟨[("development", ⟨some [3100], none⟩)], some [9]⟩
      (by decide) (by decide)).2.1,
   (claim8_thm ["--ports", "abc"] ⟨[("development", ⟨some [3100], none⟩)], some [9]⟩
      (by decide) (by decide)).2.2.1 [3100] (by decide)⟩

/-- C9: port parsing is total and silently lossy: a token (or
comma-separated item) is kept exactly when JS `parseInt` yields a number,
with no range check, so negative values, 0, and values above 65535 all
pass through, and unparsable tokens vanish without any error. -/
theorem claim9_thm :
    (∀ s n, n ∈ parsePortsString s ↔ ∃ t ∈ jsSplitComma s, jsParseInt (jsTrim t) = some n) ∧
    (∀ args n, n ∈ positionalPorts args ↔
      ∃ t ∈ args, jsStartsWith t "--" = false ∧ jsParseInt t = some n) ∧
    multiPortPorts ["--ports", "-1,0,70000,abc"] = [-1, 0, 70000] ∧
    multiPortConfigPorts ⟨[], none⟩ ["--ports", "-1,0,70000,abc"] = some [-1, 0, 70000] ∧
    positionalPorts ["-5", "x", "0"] = [-5, 0] := by
  refine ⟨?_, ?_, by decide, by decide, by decide⟩
  · intro s n
    simp [parsePortsString, List.mem_filterMap, List.mem_map]
  · intro args n
    simp only [positionalPorts, List.mem_filterMap]
    constructor
    · rintro ⟨t, ht, hf⟩
      refine ⟨t, ht, ?_⟩
      split at hf
      · cases hf
      · rename_i hsw
        exact ⟨Bool.of_not_eq_true hsw, hf⟩
    · rintro ⟨t, ht, h1, h2⟩
      exact ⟨t, ht, by rw [if_neg (by simp [h1]), h2]⟩

/-- C9 witness: the membership characterization at a concrete token list. -/
theorem claim9_witness :
    70000 ∈ parsePortsString "-1,0,70000,abc" ↔
      ∃ t ∈ jsSplitComma "-1,0,70000,abc", jsParseInt (jsTrim t) = some 70000 :=
  claim9_thm.1 "-1,0,70000,abc" 70000

/-- C10, counterexample: with `PORT` set to the empty string the response
carries port 3000, while `parseInt` of the empty string is NaN. -/
theorem claim10_cex :
    (apiHelloGET (serverPort (some ""))).port = some 3000 ∧ jsParseInt "" = none := by decide

/-- C10, amended: every hello response's `port` field is the server's
configured port, namely `parseInt` of the `PORT` environment variable, or
3000 when `PORT` is unset or set to the empty string. -/
theorem claim10_thm :
    (∀ p name, (apiHelloGET p).port = p ∧ (apiHelloPUT p).port = p ∧
      (apiHelloName p name).port = p) ∧
    (∀ env m path r, serveHello (serverPort env) m path = some r → r.port = serverPort env) ∧
    serverPort none = some 3000 ∧
    serverPort (some "") = some 3000 ∧
    (∀ s, s ≠ "" → serverPort (some s) = jsParseInt s) := by
  refine ⟨fun p name => ⟨rfl, rfl, rfl⟩, ?_, by decide, by decide, ?_⟩
  · intro env m path r h
    unfold serveHello at h
    split at h
    · split at h
      · cases Option.some.inj h; rfl
      · split at h
        · cases Option.some.inj h; rfl
        · cases h
    · split at h
      · cases Option.some.inj h; rfl
      · cases h
  · intro s hs
    simp [serverPort, hs]

/-- C10 witness: concrete environments exercising both hypotheses. -/
theorem claim10_witness :
    serverPort (some "8080") = jsParseInt "8080" ∧
    (apiHelloGET (serverPort none)).port = serverPort none :=
  ⟨claim10_thm.2.2.2.2 "8080" (by decide),
   claim10_thm.2.1 none "GET" "/api/hello" (apiHelloGET (serverPort none)) (by decide)⟩

end Multiport
